import Mathlib

set_option maxRecDepth 100000

/-!
Shallow embedding of `fast_trig.hpp` (namespace `FastTrig`), the integer-only
trigonometry kernel of the EmbedLang repository, together with theorems that
settle the specification claims against it.

Conventions of the embedding:
* C++ unsigned values are modelled as `Nat`; signed values as `Int`.
* A cast to `uint16_t` is `toUInt16` (reduction mod 2^16); a cast to
  `int16_t` is `toInt16` (reduction mod 2^16 into [-32768, 32767]).
* C++ `/` on signed operands truncates toward zero: `Int.tdiv`.
* C++ `>>` on a (possibly negative) signed operand is an arithmetic shift,
  i.e. floor division by a power of two: `Int.fdiv`.
* All definitions are specialised to the default instantiation
  `IntegerTrig<128>` (`Trig128`), except `sine_quarter_table`, which is kept
  generic in the table size `N` because claim C2 quantifies over N.
-/

namespace FastTrig

/-- Cast of an integer to `uint16_t`: reduce mod 2^16 into [0, 65535]
(`%` on `Int` is the nonnegative Euclidean remainder). -/
def toUInt16 (z : Int) : Nat := (z % 65536).toNat

/-- Cast of an integer to `int16_t` (C++20 two's complement semantics):
reduce mod 2^16 into [-32768, 32767]. -/
def toInt16 (z : Int) : Int :=
  let m := z % 65536
  if m < 32768 then m else m - 65536

/-- `IntegerTrig::sin_internal` (fast_trig.hpp:218-225): integer rational
(Bhaskara-style) approximation used by the table builders.  The C++ argument
is `uint32_t`; every call site passes a value ≤ 16384, for which the `Nat`
subtraction `16384 - x` agrees with the uint32 arithmetic of the source. -/
def sin_internal (angle : Nat) : Int :=
  let x := angle
  let term := (x * (16384 - x)) / 16384
  let numerator : Int := (term : Int) * 4
  let denominator : Int := 16487 - (term : Int)
  if denominator = 0 then 16384
  else toInt16 ((numerator * 16384).tdiv denominator)

/-- Entry `i` of `IntegerTrig<N>::generate_sine_quarter_table`
(fast_trig.hpp:227-234): `table[i] = sin_internal((i * 16384) / (N - 1))`. -/
def sine_quarter_table (N i : Nat) : Int :=
  sin_internal ((i * 16384) / (N - 1))

namespace Trig128

/-- The sine quarter table of the default instantiation `IntegerTrig<128>`. -/
def sineQ (i : Nat) : Int := sine_quarter_table 128 i

/-- `IntegerTrig<128>::sin` (fast_trig.hpp:36-60).  `RECIPROCAL_QUADRANT =
(128 << 16) / 4096 = 2048`; `TABLE_MASK = 127`.  The branchless conditional
negate `(value ^ sign_mask) - sign_mask` with `sign_mask = -(quadrant >> 1)`
is the int16 negation of `value` when `quadrant >= 2`, modelled as
`toInt16 (-value)`. -/
def sin (angle : Nat) : Int :=
  let a := angle % 16384
  let quadrant := a / 4096
  let position0 := a % 4096
  let position := if quadrant % 2 = 1 then 4096 - position0 else position0
  let indexScaled := position * 2048
  let index0 := indexScaled / 65536
  let fraction := (indexScaled / 256) % 256
  let index := if index0 < 127 then index0 else 127
  let y0 := sineQ index
  let y1 := sineQ ((index + 1) % 128)
  let value := toInt16 (y0 + Int.fdiv ((y1 - y0) * (fraction : Int)) 256)
  if quadrant / 2 = 1 then toInt16 (-value) else value

/-- `IntegerTrig<128>::cos` (fast_trig.hpp:64-66): `sin(angle + (ANGLE_MAX >>
2))` with `ANGLE_MAX = 8192`, i.e. a phase shift by 2048 internal units; the
int argument is converted back to `uint16_t` at the call. -/
def cos (angle : Nat) : Int := sin ((angle + 2048) % 65536)

/-- `IntegerTrig<128>::tan` (fast_trig.hpp:70-84): saturate to ±32767 when
`-100 < cos < 100`, otherwise `(sin * 8192) / cos` (C truncated division)
clamped to ±32767. -/
def tan (angle : Nat) : Int :=
  let sinVal := sin angle
  let cosVal := cos angle
  if -100 < cosVal ∧ cosVal < 100 then
    if 0 ≤ sinVal then 32767 else -32767
  else
    let result := (sinVal * 8192).tdiv cosVal
    if 32767 < result then 32767
    else if result < -32767 then -32767
    else result

/-- One iteration of the build-time CORDIC rotation in
`IntegerTrig<128>::generate_atan_quarter_table` (fast_trig.hpp:245-260).
The state is `(x, y, angle)`; `x` and `y` are int32, `angle` is a uint32
accumulator modelled as an unbounded `Int` (only its residue mod 2^16
survives the final `uint16_t` cast, and 2^16 divides 2^32). -/
def cordicStep (targetY : Int) (st : Int × Int × Int) (k : Nat) :
    Int × Int × Int :=
  let x := st.1
  let y := st.2.1
  let angle := st.2.2
  let angleStep : Int := ((2048 / 2 ^ k : Nat) : Int)
  if y < targetY then
    (x - Int.fdiv y (2 ^ k), y + Int.fdiv x (2 ^ k), angle + angleStep)
  else
    (x + Int.fdiv y (2 ^ k), y - Int.fdiv x (2 ^ k), angle - angleStep)

/-- Entry `i` of `IntegerTrig<128>::generate_atan_quarter_table`
(fast_trig.hpp:237-265): 16 CORDIC steps from `(16384, 0, 0)` toward
`target_y = (i * 16384) / 128`, storing the final angle as `uint16_t`. -/
def atanQ (i : Nat) : Nat :=
  let targetY : Int := (((i * 16384) / 128 : Nat) : Int)
  let final := (List.range 16).foldl (cordicStep targetY) (16384, 0, 0)
  toUInt16 final.2.2

/-- `IntegerTrig<128>::atan2` (fast_trig.hpp:92-135).  `TABLE_BITS = 7`,
`TABLE_MASK = 127`, `ANGLE_MAX = 8192`; `quadrant_offset = {0, 16384, 8192,
8192}` and `angle_sign = {1, -1, -1, 1}` indexed by
`((x < 0) << 1) | (y < 0)`. -/
def atan2 (y x : Int) : Nat :=
  if x = 0 then
    if 0 < y then 4096
    else if y < 0 then 12288
    else 0
  else
    let absX := x.natAbs
    let absY := y.natAbs
    let quadrantAdjust := (if x < 0 then 2 else 0) + (if y < 0 then 1 else 0)
    let angle : Nat :=
      if absY ≤ absX then
        let ratioScaled := (absY * 128) / absX
        let index := ratioScaled % 128
        let fraction := ((absY * 32768) / absX) % 256
        let y0 : Int := atanQ index
        let y1 : Int := atanQ ((index + 1) % 128)
        toUInt16 (y0 + Int.fdiv ((y1 - y0) * (fraction : Int)) 256)
      else
        let ratioScaled := (absX * 128) / absY
        let index := ratioScaled % 128
        let fraction := ((absX * 32768) / absY) % 256
        let y0 : Int := atanQ index
        let y1 : Int := atanQ ((index + 1) % 128)
        let base := toUInt16 (y0 + Int.fdiv ((y1 - y0) * (fraction : Int)) 256)
        toUInt16 (4096 - (base : Int))
    let offset : Nat :=
      if quadrantAdjust = 0 then 0
      else if quadrantAdjust = 1 then 16384
      else 8192
    let sign : Int := if quadrantAdjust = 0 ∨ quadrantAdjust = 3 then 1 else -1
    toUInt16 ((offset : Int) + (angle : Int) * sign)

/-- The binary-search loop of `IntegerTrig<128>::generate_asin_quarter_table`
(fast_trig.hpp:275-284): `while (high - low > 1)` bisect on `sin_internal`.
The loop strictly decreases `high - low` on every iteration and starts with
`high - low = 4096`, so fuel 4096 always reaches the loop's exit condition;
the fuel-indexed recursion is therefore extensionally the source loop. -/
def asinSearch : Nat → Int → Nat → Nat → Nat × Nat
  | 0, _, low, high => (low, high)
  | fuel + 1, target, low, high =>
    if high - low > 1 then
      let mid := (low + high) / 2
      if sin_internal mid < target then asinSearch fuel target mid high
      else asinSearch fuel target low mid
    else (low, high)

/-- Entry `i` of `IntegerTrig<128>::generate_asin_quarter_table`
(fast_trig.hpp:268-289): binary-search `[0, ANGLE_MAX/2] = [0, 4096]` for
`target = (i * 16384) / 128` and store the midpoint of the final bracket. -/
def asinQ (i : Nat) : Nat :=
  let target : Int := (((i * 16384) / 128 : Nat) : Int)
  let lohi := asinSearch 4096 target 0 4096
  ((lohi.1 + lohi.2) / 2) % 65536

/-- `IntegerTrig<128>::asin` (fast_trig.hpp:146-164).  `ASIN_RECIPROCAL =
(128 << 16) / 16384 = 512`; the absolute input is clamped to
`OUTPUT_SCALE * 2 = 16384`; negative inputs return `2 * ANGLE_MAX - angle`. -/
def asin (value : Int) : Nat :=
  let absVal0 := value.natAbs
  let absVal := if 16384 < absVal0 then 16384 else absVal0
  let indexScaled := absVal * 512
  let index0 := indexScaled / 65536
  let fraction := (indexScaled / 256) % 256
  let index := if index0 < 127 then index0 else 127
  let y0 : Int := asinQ index
  let y1 : Int := asinQ ((index + 1) % 128)
  let angle := toUInt16 (y0 + Int.fdiv ((y1 - y0) * (fraction : Int)) 256)
  if value < 0 then toUInt16 (16384 - (angle : Int)) else angle

/-- `IntegerTrig<128>::acos` (fast_trig.hpp:168-171):
`(ANGLE_MAX >> 1) - asin(value)` cast back to `uint16_t`. -/
def acos (value : Int) : Nat := toUInt16 (4096 - (asin value : Int))

/-- One iteration of the loop in `IntegerTrig<128>::magnitude`
(fast_trig.hpp:183-193).  `abs_x`/`abs_y` are uint32; the growth of `abs_x`
is reduced mod 2^32 as in the source. -/
def magStep (st : Nat × Nat) (i : Nat) : Nat × Nat :=
  let absX := st.1
  let absY := st.2
  let xShift := absX / 2 ^ i
  let yShift := absY / 2 ^ i
  if 0 < absY then
    ((absX + yShift) % 4294967296, if xShift < absY then absY - xShift else 0)
  else
    (absX, absY)

/-- `IntegerTrig<128>::magnitude` (fast_trig.hpp:179-196): 12 CORDIC-style
iterations, then the uint32 product `abs_x * 39797` (reduced mod 2^32)
shifted right by 16.  The result is at most 65535, so the final conversion
to `int32_t` is the identity. -/
def magnitude (x y : Int) : Int :=
  let final := (List.range 12).foldl magStep (x.natAbs, y.natAbs)
  (((final.1 * 39797) % 4294967296) / 65536 : Nat)

end Trig128

namespace AngleConvert

/-- The `while (degrees < 0) degrees += 360;` loop of
`AngleConvert::from_degrees` (fast_trig.hpp:354), as a fuel-indexed
recursion.  Each iteration strictly increases `degrees` by 360, so fuel `f`
reaches the loop's exit condition for every input `≥ -360 * f`; the
`int16_t` domain needs at most 92 iterations. -/
def normNeg : Nat → Int → Int
  | 0, degrees => degrees
  | fuel + 1, degrees =>
    if degrees < 0 then normNeg fuel (degrees + 360) else degrees

/-- The `while (degrees >= 360) degrees -= 360;` loop of
`AngleConvert::from_degrees` (fast_trig.hpp:355), as a fuel-indexed
recursion; fuel `f` suffices for every input `≤ 360 * f + 359`. -/
def normGe : Nat → Int → Int
  | 0, degrees => degrees
  | fuel + 1, degrees =>
    if 360 ≤ degrees then normGe fuel (degrees - 360) else degrees

/-- `AngleConvert::from_degrees` (fast_trig.hpp:352-359): normalize the
int16 input into [0, 360) with the two loops, then `(degrees * 16384) /
360` in uint32 arithmetic.  Fuel 128 covers the whole `int16_t` domain
(128 * 360 = 46080 > 32768). -/
def from_degrees (degrees : Int) : Nat :=
  let d1 := normNeg 128 degrees
  let d2 := normGe 128 d1
  (d2.toNat * 16384) / 360

/-- `AngleConvert::to_degrees` (fast_trig.hpp:370-372): `(angle * 360) /
16384` in uint32 arithmetic, cast to `int16_t`. -/
def to_degrees (angle : Nat) : Int := toInt16 (((angle * 360) / 16384 : Nat))

end AngleConvert

/-! ## Helper lemmas -/

/-- A `uint16_t` cast lands in [0, 65535]. -/
theorem toUInt16_lt (z : Int) : toUInt16 z < 65536 := by
  unfold toUInt16
  have h1 := Int.emod_nonneg z (by norm_num : (65536 : Int) ≠ 0)
  have h2 := Int.emod_lt_of_pos z (by norm_num : (0 : Int) < 65536)
  omega

/-- `asin` always returns a `uint16_t` value. -/
theorem asin_lt_65536 (v : Int) : Trig128.asin v < 65536 := by
  simp only [Trig128.asin]
  split
  · exact toUInt16_lt _
  · exact toUInt16_lt _

/-- The two-sided clamp written as an if-chain equals `max`/`min`. -/
theorem clamp_ite_eq_max_min (r : Int) :
    (if 32767 < r then (32767 : Int) else if r < -32767 then -32767 else r) =
      max (-32767) (min 32767 r) := by
  simp only [min_def, max_def]
  split_ifs <;> omega

/-- Evaluating `atan2` at `x = 0` reduces to the special-case chain. -/
theorem atan2_x_zero_eq (y : Int) :
    Trig128.atan2 y 0 = if 0 < y then 4096 else if y < 0 then 12288 else 0 := by
  simp only [Trig128.atan2]
  rw [if_pos trivial]

/-- The `while (degrees < 0) degrees += 360;` loop: with fuel covering the
input, the result is nonnegative and is either the unchanged input or at
most 359. -/
theorem normNeg_spec (fuel : Nat) : ∀ d : Int, -(360 * (fuel : Int)) ≤ d →
    0 ≤ AngleConvert.normNeg fuel d ∧
      (AngleConvert.normNeg fuel d = d ∨ AngleConvert.normNeg fuel d ≤ 359) := by
  induction fuel with
  | zero =>
    intro d h
    have h0 : (0 : Int) ≤ d := by push_cast at h; omega
    exact ⟨h0, Or.inl rfl⟩
  | succ f ih =>
    intro d h
    simp only [AngleConvert.normNeg]
    split_ifs with hd
    · obtain ⟨ih1, ih2⟩ := ih (d + 360) (by push_cast at h ⊢; omega)
      refine ⟨ih1, Or.inr ?_⟩
      rcases ih2 with he | hle
      · omega
      · exact hle
    · exact ⟨by omega, Or.inl rfl⟩

/-- The `while (degrees >= 360) degrees -= 360;` loop: with fuel covering
the input, a nonnegative input normalizes into [0, 359]. -/
theorem normGe_spec (fuel : Nat) : ∀ d : Int, d ≤ 360 * (fuel : Int) + 359 →
    0 ≤ d →
    0 ≤ AngleConvert.normGe fuel d ∧ AngleConvert.normGe fuel d ≤ 359 := by
  induction fuel with
  | zero =>
    intro d h h0
    have : d ≤ 359 := by push_cast at h; omega
    exact ⟨h0, this⟩
  | succ f ih =>
    intro d h h0
    simp only [AngleConvert.normGe]
    split_ifs with hd
    · exact ih (d - 360) (by push_cast at h ⊢; omega) (by omega)
    · exact ⟨h0, by omega⟩

/-! ## Claim theorems -/

/-- Claim C1 (code_bug evidence): in the source, `cos(angle)` is
`sin(angle + (ANGLE_MAX >> 2)) = sin(angle + 2048)` — a shift by 2048
internal units, not the 4096 (= π/2) the specification states.  At the
failing input `angle = 0` (instantiation N = 128): `cos 0 = 21656` while
`sin((0 + 4096) mod 16384) = 0`, so the claimed identity
`cos a = sin((a + 4096) mod 16384)` is false. -/
theorem c1_cos_shift_is_2048_not_4096 :
    (∀ angle : Nat, Trig128.cos angle = Trig128.sin ((angle + 2048) % 65536)) ∧
    Trig128.cos 0 = 21656 ∧
    Trig128.sin ((0 + 4096) % 16384) = 0 ∧
    Trig128.cos 0 ≠ Trig128.sin ((0 + 4096) % 16384) :=
  ⟨fun _ => rfl, by decide, by decide, by decide⟩

/-- Claim C2 (code_bug evidence): the generated sine quarter table starts at
0 as claimed, but for every table size N the last entry is
`sin_internal(16384) = 0`, not 16384, and for N = 128 the table rises to
21656 at index 64 before falling back to 0, so it is not monotonically
nondecreasing. -/
theorem c2_sine_table_invariants_fail :
    (∀ N : Nat, 2 ≤ N → sine_quarter_table N (N - 1) = 0) ∧
    sine_quarter_table 128 0 = 0 ∧
    sine_quarter_table 128 64 = 21656 ∧
    sine_quarter_table 128 127 = 0 ∧
    ¬ sine_quarter_table 128 64 ≤ sine_quarter_table 128 127 := by
  refine ⟨?_, by decide, by decide, by decide, by decide⟩
  intro N hN
  unfold sine_quarter_table
  rw [Nat.mul_div_cancel_left 16384 (by omega : 0 < N - 1)]
  decide

/-- Witness for the quantified part of the C2 theorem, at N = 8. -/
theorem c2_sine_table_invariants_fail_witness :
    sine_quarter_table 8 7 = 0 :=
  c2_sine_table_invariants_fail.1 8 (by decide)

/-- Claim C3 (code_bug evidence): for N = 128, `sin 0 = 0` and
`sin 8192 = 0` as claimed, but `sin 4096 = 0` (claim: 16384 ± 1) and
`sin 12288 = 0` (claim: −16384 ± 1). -/
theorem c3_sin_quadrant_boundaries :
    Trig128.sin 0 = 0 ∧ Trig128.sin 4096 = 0 ∧
    Trig128.sin 8192 = 0 ∧ Trig128.sin 12288 = 0 := by
  decide

/-- Claim C4 (code_bug evidence): `magnitude` does not approximate the
Euclidean norm within 1% on the claimed domain.  At the axis-aligned input
(2^20, 0) no CORDIC iteration fires and the uint32 product wraps:
the result is 46928 against a true norm of 1048576 (≈95.5% error).  Even
the specification's own scenario inputs miss their targets: (3000, 4000)
gives 4554 (expected 5000 ± 50) and (5000, 12000) gives 12448 (expected
13000 ± 130). -/
theorem c4_magnitude_values :
    Trig128.magnitude 1048576 0 = 46928 ∧
    Trig128.magnitude 3000 4000 = 4554 ∧
    Trig128.magnitude 5000 12000 = 12448 := by
  decide

/-- Claim C5 (code_bug evidence): for N = 128, only the `x = 0` special case
meets the claimed table: `to_degrees (atan2 1000 0) = 90`, but
`to_degrees (atan2 1000 1000) = 1432` (claim: 45),
`to_degrees (atan2 1000 (-1000)) = 187` (claim: 135), and
`to_degrees (atan2 (-1000) 1000) = 367` (claim: 315). -/
theorem c5_atan2_to_degrees_values :
    AngleConvert.to_degrees (Trig128.atan2 1000 1000) = 1432 ∧
    AngleConvert.to_degrees (Trig128.atan2 1000 (-1000)) = 187 ∧
    AngleConvert.to_degrees (Trig128.atan2 (-1000) 1000) = 367 ∧
    AngleConvert.to_degrees (Trig128.atan2 1000 0) = 90 := by
  decide

/-- Claim C6 (code_bug evidence): the source clamps `|v|` at
`OUTPUT_SCALE * 2 = 16384`, not at 8192.  Hence `asin 8192 = 2101` (claim:
4096), `acos 8192 = 1995` (claim: 0), and an input above 8192 is not
treated as 8192: `asin 12000 = 3162 ≠ asin 8192`. -/
theorem c6_asin_acos_at_8192 :
    Trig128.asin 8192 = 2101 ∧ Trig128.acos 8192 = 1995 ∧
    Trig128.asin 12000 = 3162 ∧ Trig128.asin 12000 ≠ Trig128.asin 8192 := by
  decide

/-- Claim C7 (confirmed): for every angle, if `|cos angle| < 100` then `tan`
returns exactly +32767 when `sin angle ≥ 0` and −32767 otherwise; in all
other cases it returns `(sin · 8192) / cos` (C truncated division) clamped
to [−32767, 32767].  These are the only paths through `tan`. -/
theorem c7_tan_saturation_and_clamp (angle : Nat) :
    (|Trig128.cos angle| < 100 →
      Trig128.tan angle =
        if 0 ≤ Trig128.sin angle then 32767 else -32767) ∧
    (100 ≤ |Trig128.cos angle| →
      Trig128.tan angle =
        max (-32767)
          (min 32767 ((Trig128.sin angle * 8192).tdiv (Trig128.cos angle)))) := by
  constructor
  · intro h
    have hc : -100 < Trig128.cos angle ∧ Trig128.cos angle < 100 := abs_lt.mp h
    simp only [Trig128.tan]
    rw [if_pos hc]
  · intro h
    have hc : ¬(-100 < Trig128.cos angle ∧ Trig128.cos angle < 100) := by
      intro hcon
      have := abs_lt.mpr hcon
      omega
    simp only [Trig128.tan]
    rw [if_neg hc]
    exact clamp_ite_eq_max_min _

/-- Witness for C7: at angle 14336, `cos = 0` and `sin < 0`, so `tan`
saturates; at angle 0, `|cos| = 21656 ≥ 100`, so `tan` takes the quotient
path. -/
theorem c7_tan_saturation_and_clamp_witness :
    Trig128.tan 14336 =
      (if 0 ≤ Trig128.sin 14336 then (32767 : Int) else -32767) ∧
    Trig128.tan 0 =
      max (-32767) (min 32767 ((Trig128.sin 0 * 8192).tdiv (Trig128.cos 0))) :=
  ⟨(c7_tan_saturation_and_clamp 14336).1 (by decide),
   (c7_tan_saturation_and_clamp 0).2 (by decide)⟩

/-- Claim C8 (confirmed): for every signed input `y`, `atan2 y 0` returns
exactly 4096 when `y > 0`, exactly 12288 when `y < 0`, and 0 when `y = 0`
(so `atan2 0 0 = 0`). -/
theorem c8_atan2_zero_x (y : Int) :
    (0 < y → Trig128.atan2 y 0 = 4096) ∧
    (y < 0 → Trig128.atan2 y 0 = 12288) ∧
    (y = 0 → Trig128.atan2 y 0 = 0) := by
  refine ⟨fun h => ?_, fun h => ?_, fun h => ?_⟩ <;> rw [atan2_x_zero_eq]
  · rw [if_pos h]
  · rw [if_neg (by omega), if_pos h]
  · rw [if_neg (by omega), if_neg (by omega)]

/-- Witness for C8 at y = 1000, y = −1000 and y = 0. -/
theorem c8_atan2_zero_x_witness :
    Trig128.atan2 1000 0 = 4096 ∧ Trig128.atan2 (-1000) 0 = 12288 ∧
    Trig128.atan2 0 0 = 0 :=
  ⟨(c8_atan2_zero_x 1000).1 (by decide),
   (c8_atan2_zero_x (-1000)).2.1 (by decide),
   (c8_atan2_zero_x 0).2.2 rfl⟩

/-- Counterexample to claim C9 as stated: at v = −8192 the sum of the two
returned uint16 angles is 69632 = 2^16 + 4096, not within ±10 of 4096 (the
`acos` subtraction `4096 - asin` wraps mod 2^16 for negative inputs, whose
`asin` exceeds 4096). -/
theorem c9_sum_not_4096_at_neg8192 :
    Trig128.asin (-8192) + Trig128.acos (-8192) = 69632 ∧
    ¬ |((Trig128.asin (-8192) + Trig128.acos (-8192) : Nat) : Int) - 4096| ≤ 10 := by
  decide

/-- Claim C9, amended (corrected): for every v ∈ [−8192, 8192] the sum
`asin v + acos v` equals 4096 exactly *modulo 2^16*; the plain sum is 4096
for v ≥ 0 and 69632 for v < 0. -/
theorem c9_asin_acos_sum_mod_65536 (v : Int) (h1 : -8192 ≤ v)
    (h2 : v ≤ 8192) :
    (Trig128.asin v + Trig128.acos v) % 65536 = 4096 := by
  have ha := asin_lt_65536 v
  unfold Trig128.acos toUInt16
  omega

/-- Witness for the amended C9 at v = −1000. -/
theorem c9_asin_acos_sum_mod_65536_witness :
    (Trig128.asin (-1000) + Trig128.acos (-1000)) % 65536 = 4096 :=
  c9_asin_acos_sum_mod_65536 (-1000) (by decide) (by decide)

/-- Claim C10 (confirmed): for every int16 input, `from_degrees`
(whose two normalization loops are total: fuel 128 strictly exceeds the at
most 92 iterations either loop can make on the int16 domain) returns an
angle strictly below 16384. -/
theorem c10_from_degrees_lt_16384 (d : Int) (h1 : -32768 ≤ d)
    (h2 : d ≤ 32767) :
    AngleConvert.from_degrees d < 16384 := by
  unfold AngleConvert.from_degrees
  obtain ⟨hn0, hn1⟩ := normNeg_spec 128 d (by push_cast; omega)
  obtain ⟨hg0, hg1⟩ :=
    normGe_spec 128 (AngleConvert.normNeg 128 d)
      (by rcases hn1 with he | hle <;> push_cast <;> omega) hn0
  have ht : (AngleConvert.normGe 128 (AngleConvert.normNeg 128 d)).toNat ≤ 359 := by
    omega
  calc (AngleConvert.normGe 128 (AngleConvert.normNeg 128 d)).toNat * 16384 / 360
      ≤ 359 * 16384 / 360 :=
        Nat.div_le_div_right (Nat.mul_le_mul_right _ ht)
    _ < 16384 := by norm_num

/-- Witness for C10 at the extreme int16 input d = −32768. -/
theorem c10_from_degrees_lt_16384_witness :
    AngleConvert.from_degrees (-32768) < 16384 :=
  c10_from_degrees_lt_16384 (-32768) (by decide) (by decide)

end FastTrig
